import Mathlib

/-
Verification of the macro-driven signal engine (EnhancedCloudSystem,
src/signals/cloud_system.py) and of the strategy-layer signal decision
(src/strategy/balance_breaker.py).

Modelling conventions:
* Python floats are modelled by real numbers; the float NaN sentinel used for
  "no correlation value this step" is modelled by Option.
* The process-global numpy random generator is modelled by a position counter
  into an ambient stream (stream : ℕ → ℝ).  np.random.seed(42), executed at
  construction, resets the position to 0; every sampling call consumes a fixed
  number of stream values and advances the position.  The Gaussian /
  covariance shaping applied by the library sampler to the raw variates is not
  modelled (identity transform); what is kept exactly is the mean vector, the
  number of variates consumed, and the shared global position.
* The library PCA routine is a model parameter (pca : List Vec3 → Vec3 giving
  the first principal component); no claim depends on its numeric output.
* Observations are partial maps from indicator names to values, mirroring the
  Python dict with .get defaults.
-/

noncomputable section

abbrev Vec3 := ℝ × ℝ × ℝ

abbrev Obs := String → Option ℝ

/-- dict.get(key, default) on an observation record. -/
def getObs (o : Obs) (k : String) (d : ℝ) : ℝ := (o k).getD d

def vadd (p q : Vec3) : Vec3 := (p.1 + q.1, p.2.1 + q.2.1, p.2.2 + q.2.2)

def vsub (p q : Vec3) : Vec3 := (p.1 - q.1, p.2.1 - q.2.1, p.2.2 - q.2.2)

/-- Euclidean norm of a 3-vector (np.linalg.norm). -/
def norm3 (v : Vec3) : ℝ := Real.sqrt (v.1 ^ 2 + v.2.1 ^ 2 + v.2.2 ^ 2)

/-- Euclidean distance between two points (scipy pdist metric). -/
def dist3 (p q : Vec3) : ℝ := norm3 (vsub p q)

/-- Cross product r × v (np.cross). -/
def cross3 (r v : Vec3) : Vec3 :=
  (r.2.1 * v.2.2 - r.2.2 * v.2.1, r.2.2 * v.1 - r.1 * v.2.2, r.1 * v.2.1 - r.2.1 * v.1)

/-- The pair_to_codes dictionary of EnhancedCloudSystem.__init__. -/
def pairToCode (pair : String) : Option String :=
  if pair = "USDJPY" then some "JP"
  else if pair = "USDCAD" then some "CA"
  else if pair = "AUDUSD" then some "AU"
  else if pair = "EURUSD" then some "EU"
  else if pair = "GBPUSD" then some "GB"
  else none

/-- get_currency_code: the mapped code, defaulting to JP for unknown pairs. -/
def getCurrencyCode (pair : String) : String := (pairToCode pair).getD "JP"

/-- is_inverted_pair: membership in the AUDUSD/EURUSD/GBPUSD list. -/
def isInvertedPair (pair : String) : Bool :=
  pair = "AUDUSD" || pair = "EURUSD" || pair = "GBPUSD"

def key2Y (code : String) : String := "US-" ++ code ++ "_2Y"

def key10Y (code : String) : String := "US-" ++ code ++ "_10Y"

def keyCPI (code : String) : String := "US-" ++ code ++ "_CPI_YOY"

/-- list.append followed by a pop(0) when the window capacity is exceeded. -/
def pushWindow {α : Type} (w : ℕ) (x : α) (l : List α) : List α :=
  let l2 := l ++ [x]
  if w < l2.length then l2.tail else l2

/-- np.mean of a list of scalars. -/
def listMean (l : List ℝ) : ℝ := l.sum / l.length

/-- np.std (population standard deviation). -/
def npStd (l : List ℝ) : ℝ := Real.sqrt (listMean (l.map fun x => (x - listMean l) ^ 2))

/-- np.diff: successive differences. -/
def npDiff (l : List ℝ) : List ℝ := List.zipWith (fun a b => b - a) l l.tail

/-- Python slice xs[-k:]: the last k elements. -/
def lastK (k : ℕ) (l : List ℝ) : List ℝ := l.drop (l.length - k)

/-- Off-diagonal entry of np.corrcoef: Pearson correlation coefficient. -/
def corrcoef (xs ys : List ℝ) : ℝ :=
  let mx := listMean xs
  let my := listMean ys
  (List.zipWith (fun a b => (a - mx) * (b - my)) xs ys).sum /
    (Real.sqrt ((xs.map fun a => (a - mx) ^ 2).sum) *
     Real.sqrt ((ys.map fun b => (b - my) ^ 2).sum))

/-- np.gradient of a 1-D array with unit spacing: one-sided differences at the
ends, central differences inside. -/
def npGradient (xs : List ℝ) : List ℝ :=
  (List.range xs.length).map fun i =>
    if i = 0 then xs.getD 1 0 - xs.getD 0 0
    else if i = xs.length - 1 then xs.getD i 0 - xs.getD (i - 1) 0
    else (xs.getD (i + 1) 0 - xs.getD (i - 1) 0) / 2

/-- Models np.random.multivariate_normal(mean, cov, n) on the shared global
stream: three raw variates per point are consumed and the global position
advances by 3n.  The covariance shaping of the library sampler is not modelled
(identity transform of the raw variates); the covariance argument is recorded
from the call site but does not enter the produced coordinates. -/
def mvnSample (stream : ℕ → ℝ) (mean : Vec3) (_cov : List (List ℝ)) (n : ℕ) (g : ℕ) :
    List Vec3 × ℕ :=
  (((List.range n).map fun i =>
      (mean.1 + stream (g + 3 * i), mean.2.1 + stream (g + 3 * i + 1),
       mean.2.2 + stream (g + 3 * i + 2))), g + 3 * n)

/-- Models np.random.normal(0, sd, (n, 3)) on the shared global stream. -/
def normalSample (stream : ℕ → ℝ) (sd : ℝ) (n : ℕ) (g : ℕ) : List Vec3 × ℕ :=
  (((List.range n).map fun i =>
      (sd * stream (g + 3 * i), sd * stream (g + 3 * i + 1),
       sd * stream (g + 3 * i + 2))), g + 3 * n)

/-- The baseline covariance matrix used by generate_cloud and by
update_cloud_distribution in the TARGET_EQUILIBRIUM regime. -/
def baselineCov : List (List ℝ) :=
  [[1, 0.1, -0.1], [0.1, 1, -0.1], [-0.1, -0.1, 1]]

/-- Mutable state of EnhancedCloudSystem.  obs_history mirrors the source's
history of raw observation records. -/
structure Engine where
  num_points : ℕ
  scale : ℝ
  pair : String
  window_size : ℕ
  psi : ℝ
  lower_bound : ℝ
  natural_rate : Option ℝ
  vix_history : List ℝ
  inflation_exp_history : List ℝ
  interest_rate_history : List ℝ
  natural_rate_history : List ℝ
  obs_history : List Obs
  vix_inflation_corr : ℝ
  vix_rates_corr : ℝ
  initial_points : List Vec3
  current_points : List Vec3
  prev_points : List Vec3
  m_avg_delta : List ℝ
  m_cloud_entropy : List ℝ
  m_axis_angle : List ℝ
  m_rot_energy : List ℝ
  m_vix_infl : List ℝ
  m_vix_rates : List ℝ
  m_regime : List String
  m_lb_prob : List ℝ

/-- The metrics dict returned by run_step, including the attached signal. -/
structure StepResult where
  precession : ℝ
  instability : ℝ
  market_mood : ℝ
  avg_delta : ℝ
  cloud_entropy : ℝ
  regime : String
  lower_bound_probability : ℝ
  vix_inflation_correlation : ℝ
  vix_rates_correlation : ℝ
  signal : String

/-- EnhancedCloudSystem.__init__ together with generate_cloud.  np.random.seed(42)
resets the shared global stream position to 0; the construction then draws the
multivariate-normal cloud and the 0.01-noise, consuming 6·num_points values.
The incoming global position is discarded by the reseed. -/
def initEngine (stream : ℕ → ℝ) (num_points : ℕ) (pair : String) (window_size : ℕ)
    (_g : ℕ) : Engine × ℕ :=
  let g0 : ℕ := 0
  let cloud := mvnSample stream (0, 0, 0) baselineCov num_points g0
  let noise := normalSample stream 0.01 num_points cloud.2
  let ipts := List.zipWith vadd cloud.1 noise.1
  ({ num_points := num_points
     scale := 0.20
     pair := pair
     window_size := window_size
     psi := 1.5
     lower_bound := 0.0
     natural_rate := some 0.5
     vix_history := []
     inflation_exp_history := []
     interest_rate_history := []
     natural_rate_history := []
     obs_history := []
     vix_inflation_corr := 0.0
     vix_rates_corr := 0.0
     initial_points := ipts
     current_points := ipts
     prev_points := ipts
     m_avg_delta := []
     m_cloud_entropy := []
     m_axis_angle := []
     m_rot_energy := []
     m_vix_infl := []
     m_vix_rates := []
     m_regime := []
     m_lb_prob := [] }, noise.2)

/-- calculate_lower_bound_probability.  The None-valued natural_rate case is the
source's caught-TypeError path, which falls back to 0.1. -/
def calculateLowerBoundProbability (s : Engine) : ℝ :=
  if s.natural_rate_history = [] then 0.1
  else
    match s.natural_rate with
    | none => 0.1
    | some nr => 1 / (1 + Real.exp (2 * (nr - s.lower_bound)))

/-- detect_market_regime: threshold (psi - 1)/psi on the lower-bound probability. -/
def detectMarketRegime (s : Engine) : String :=
  if calculateLowerBoundProbability s < (s.psi - 1) / s.psi then "TARGET_EQUILIBRIUM"
  else "LOWER_BOUND_RISK"

/-- The raw natural-rate estimate s10 - ci/2 of estimate_natural_rate. -/
def rawNaturalRate (pair : String) (md : Obs) : ℝ :=
  let code := getCurrencyCode pair
  getObs md (key10Y code) 0 - getObs md (keyCPI code) 0 / 2

/-- estimate_natural_rate: push the observation, EMA-smooth the raw estimate
(the None branch mirrors the source's hasattr/None check), push the result. -/
def estimateNaturalRate (s : Engine) (md : Obs) : Engine :=
  let s1 : Engine := { s with obs_history := pushWindow s.window_size md s.obs_history }
  let est := rawNaturalRate s1.pair md
  let nr : ℝ :=
    match s1.natural_rate with
    | none => est
    | some prev => 0.95 * prev + 0.05 * est
  { s1 with natural_rate := some nr
            natural_rate_history := pushWindow s1.window_size nr s1.natural_rate_history }

/-- calculate_correlations: push whichever of VIX / CPI / 10Y is present, then
recompute the first-differenced Pearson correlations; an Option models the NaN
sentinel, and the stored value is only replaced by a non-None result. -/
def calculateCorrelations (s : Engine) (md : Obs) : Engine :=
  let s1 : Engine :=
    match md "VIX" with
    | some v => { s with vix_history := pushWindow s.window_size v s.vix_history }
    | none => s
  let code := getCurrencyCode s1.pair
  let s2 : Engine :=
    match md (keyCPI code) with
    | some v =>
        { s1 with inflation_exp_history := pushWindow s1.window_size v s1.inflation_exp_history }
    | none => s1
  let s3 : Engine :=
    match md (key10Y code) with
    | some v =>
        { s2 with interest_rate_history := pushWindow s2.window_size v s2.interest_rate_history }
    | none => s2
  let vic : Option ℝ :=
    if 3 ≤ s3.vix_history.length ∧ 3 ≤ s3.inflation_exp_history.length then
      let vc := npDiff s3.vix_history
      let ic := npDiff s3.inflation_exp_history
      let k := min vc.length ic.length
      if 2 ≤ k ∧ 0 < npStd (lastK k vc) ∧ 0 < npStd (lastK k ic) then
        some (corrcoef (lastK k vc) (lastK k ic))
      else none
    else none
  let vrc : Option ℝ :=
    if 3 ≤ s3.vix_history.length ∧ 3 ≤ s3.interest_rate_history.length then
      let vc := npDiff s3.vix_history
      let rc := npDiff s3.interest_rate_history
      let k := min vc.length rc.length
      if 2 ≤ k ∧ 0 < npStd (lastK k vc) ∧ 0 < npStd (lastK k rc) then
        some (corrcoef (lastK k vc) (lastK k rc))
      else none
    else none
  let s4 : Engine :=
    match vic with
    | some c => { s3 with vix_inflation_corr := c }
    | none => s3
  match vrc with
  | some c => { s4 with vix_rates_corr := c }
  | none => s4

/-- The mean vector of update_cloud_distribution: force multiplier applied to
the raw indicator values before the tanh bounding; the risk component carries
the JPY safe-haven and AUD overrides but no inversion multiplier. -/
def redistMean (pair : String) (md : Obs) : Vec3 :=
  let code := getCurrencyCode pair
  let inv := isInvertedPair pair
  let m : ℝ := if inv then -1 else 1
  let s2v := getObs md (key2Y code) 0 * m
  let s10v := getObs md (key10Y code) 0 * m
  let civ := getObs md (keyCPI code) 0 * m
  let vix := getObs md "VIX" 20
  let monetary := Real.tanh ((0.5 * s2v + 0.5 * s10v) / 2)
  let inflation := Real.tanh (civ / 3)
  let risk0 := -1 * Real.tanh ((vix - 20) / 15)
  let risk :=
    if code = "JP" ∧ inv = false then risk0 * (-1)
    else if code = "AU" ∧ inv = true then risk0 * 1
    else risk0
  (monetary, inflation, risk)

/-- update_cloud_distribution: replace current_points with fresh samples from
the regime-conditioned distribution, consuming global stream values. -/
def updateCloudDistribution (stream : ℕ → ℝ) (s : Engine) (md : Obs) (g : ℕ) :
    Engine × ℕ :=
  let mean := redistMean s.pair md
  let regime := detectMarketRegime s
  let lb := calculateLowerBoundProbability s
  let cov :=
    if regime = "LOWER_BOUND_RISK" then
      let sv := min 0.8 (lb * 1.5)
      [[1, 0.3 * sv, -0.4 * sv], [0.3 * sv, 1, -0.3 * sv], [-0.4 * sv, -0.3 * sv, 1]]
    else baselineCov
  let draw := mvnSample stream mean cov s.num_points g
  ({ s with current_points := draw.1 }, draw.2)

/-- The three bounded tanh forces of map_macro_to_forces before the regime
amplification block: inversion multiplier applied after the tanh, with the JPY
safe-haven and AUD risk-multiplier overrides. -/
def rawForces (pair : String) (md : Obs) : Vec3 :=
  let code := getCurrencyCode pair
  let inv := isInvertedPair pair
  let m : ℝ := if inv then -1 else 1
  let s2v := getObs md (key2Y code) 0
  let s10v := getObs md (key10Y code) 0
  let fx := Real.tanh ((0.5 * s2v + 0.5 * s10v) / 2) * m
  let civ := getObs md (keyCPI code) 0
  let fy := Real.tanh (civ / 3) * m
  let vix := getObs md "VIX" 20
  let riskm : ℝ :=
    if code = "JP" ∧ inv = false then -1 * m
    else if code = "AU" ∧ inv = true then 1 * m
    else m
  let fz := -1 * Real.tanh ((vix - 20) / 15) * riskm
  (fx, fy, fz)

/-- The force computation of map_macro_to_forces given the detected regime and
the stored vix_inflation_corr.  The source also guards on the stored value not
being NaN; the stored value is initialised to 0.0 and only ever replaced by a
computed correlation, so it is never NaN and the guard is modelled as true. -/
def mapForcesCore (pair : String) (md : Obs) (regime : String) (corr : ℝ) : Vec3 :=
  let f := rawForces pair md
  let vix := getObs md "VIX" 20
  if regime = "LOWER_BOUND_RISK" ∧ 20 < vix then
    if corr < -0.1 then
      let impact := 1 + 0.5 * |corr|
      (f.1 * impact, f.2.1 * impact, f.2.2)
    else f
  else f

/-- map_macro_to_forces: a non-None pair argument rebinds the stored pair before
any computation; the forces are then computed from the (possibly rebound) state. -/
def mapMacroToForces (s : Engine) (md : Obs) (pairArg : Option String) : Vec3 × Engine :=
  let s1 : Engine :=
    match pairArg with
    | some p => { s with pair := p }
    | none => s
  (mapForcesCore s1.pair md (detectMarketRegime s1) s1.vix_inflation_corr, s1)

/-- Rotation about the x-axis by angle a (scipy Rotation.from_rotvec([a,0,0])). -/
def rotX (a : ℝ) (v : Vec3) : Vec3 :=
  (v.1, Real.cos a * v.2.1 - Real.sin a * v.2.2, Real.sin a * v.2.1 + Real.cos a * v.2.2)

/-- Rotation about the y-axis by angle a. -/
def rotY (a : ℝ) (v : Vec3) : Vec3 :=
  (Real.cos a * v.1 + Real.sin a * v.2.2, v.2.1, -Real.sin a * v.1 + Real.cos a * v.2.2)

/-- Rotation about the z-axis by angle a. -/
def rotZ (a : ℝ) (v : Vec3) : Vec3 :=
  (Real.cos a * v.1 - Real.sin a * v.2.1, Real.sin a * v.1 + Real.cos a * v.2.1, v.2.2)

/-- The composed rotation matrix mat_z @ mat_y @ mat_x of apply_rotation,
acting on a vector. -/
def composedRot (fx fy fz scale : ℝ) (v : Vec3) : Vec3 :=
  rotZ (fz * scale) (rotY (fy * scale) (rotX (fx * scale) v))

/-- apply_rotation: snapshot current as prev, then rotate current in place. -/
def applyRotation (s : Engine) (f : Vec3) : Engine :=
  { s with prev_points := s.current_points
           current_points := s.current_points.map (composedRot f.1 f.2.1 f.2.2 s.scale) }

/-- All ordered-pair distances of the cloud: squareform(pdist(points)) flattened,
including the N zero diagonal entries and each unordered pair twice, exactly what
np.histogram receives in calculate_metrics. -/
def pairDists (ps : List Vec3) : List ℝ := ps.bind fun p => ps.map fun q => dist3 p q

/-- Membership of a value in bin k of np.histogram(·, bins=20, range=(0,5)):
bin edges at k/4, the last bin closed on the right. -/
def inBin (k : ℕ) (d : ℝ) : Prop :=
  ((k : ℝ) / 4 ≤ d) ∧ ((k = 19 ∧ d ≤ 5) ∨ (k ≠ 19 ∧ d < ((k : ℝ) + 1) / 4))

instance (k : ℕ) (d : ℝ) : Decidable (inBin k d) := by unfold inBin; infer_instance

/-- Number of values of the list falling in bin k. -/
def countIn (k : ℕ) (ds : List ℝ) : ℕ :=
  (ds.map fun d => if inBin k d then 1 else 0).sum

/-- The 20 bin counts of np.histogram(·, bins=20, range=(0,5)). -/
def histCounts (ds : List ℝ) : List ℕ := (List.range 20).map fun k => countIn k ds

/-- Normalisation to a probability vector followed by scipy.stats.entropy:
Shannon entropy in nats, empty bins contributing zero. -/
def entropyOfCounts (cs : List ℕ) : ℝ :=
  let total : ℝ := (cs.map fun c => (c : ℝ)).sum
  let terms := cs.map fun c => (c : ℝ) / total * Real.log ((c : ℝ) / total)
  Neg.neg terms.sum

/-- The cloud_entropy metric of calculate_metrics, as the source computes it
(histogram of the full squareform distance matrix). -/
def cloudEntropy (ps : List Vec3) : ℝ := entropyOfCounts (histCounts (pairDists ps))

/-- All coordinates of the cloud as one flat list (np.var flattens its input). -/
def flattenCoords (ps : List Vec3) : List ℝ := ps.bind fun p => [p.1, p.2.1, p.2.2]

/-- np.var of the flattened array (population variance). -/
def npVar (l : List ℝ) : ℝ := listMean (l.map fun x => (x - listMean l) ^ 2)

def clip (lo hi x : ℝ) : ℝ := max lo (min hi x)

/-- calculate_metrics: push avg_delta, cloud_entropy, principal-axis angle and
rotational energy, push the regime metrics, and produce the returned metrics
record; derived metrics require the avg_delta log to exceed length 5 and are 0
otherwise.  Both PCA calls inject 1e-10 noise (consuming global stream values)
when the flattened variance is within np.allclose tolerance of 0.  The signal
field is attached later by run_step. -/
def calculateMetrics (stream : ℕ → ℝ) (pca : List Vec3 → Vec3) (s : Engine) (g : ℕ) :
    StepResult × Engine × ℕ :=
  let delta := listMean (List.zipWith dist3 s.current_points s.prev_points)
  let s1 : Engine := { s with m_avg_delta := s.m_avg_delta ++ [delta] }
  let ent := cloudEntropy s1.current_points
  let s2 : Engine := { s1 with m_cloud_entropy := s1.m_cloud_entropy ++ [ent] }
  let dataNoise :=
    if |npVar (flattenCoords s2.current_points)| ≤ 1e-8 then
      let nd := normalSample stream 1e-10 s2.current_points.length g
      (List.zipWith vadd s2.current_points nd.1, nd.2)
    else (s2.current_points, g)
  let g1 := dataNoise.2
  let axis := pca dataNoise.1
  let cosAngle := (axis.1 * 1 + axis.2.1 * 0 + axis.2.2 * 0) / (norm3 axis * norm3 (1, 0, 0))
  let angle := Real.arccos (clip (-1) 1 cosAngle)
  let s3 : Engine := { s2 with m_axis_angle := s2.m_axis_angle ++ [angle] }
  let rotE : ℝ :=
    if 1 < s3.m_avg_delta.length then
      (List.zipWith (fun r p =>
          let lv := cross3 r (vsub r p)
          lv.1 ^ 2 + lv.2.1 ^ 2 + lv.2.2 ^ 2) s3.current_points s3.prev_points).sum /
        s3.num_points
    else 0
  let s4 : Engine := { s3 with m_rot_energy := s3.m_rot_energy ++ [rotE] }
  let regime := detectMarketRegime s4
  let lb := calculateLowerBoundProbability s4
  let s5 : Engine :=
    { s4 with m_regime := s4.m_regime ++ [regime]
              m_lb_prob := s4.m_lb_prob ++ [lb]
              m_vix_infl := s4.m_vix_infl ++ [s4.vix_inflation_corr]
              m_vix_rates := s4.m_vix_rates ++ [s4.vix_rates_corr] }
  if 5 < s5.m_avg_delta.length then
    let precession := listMean (npGradient (lastK 5 s5.m_axis_angle))
    let instability := listMean (lastK 5 s5.m_rot_energy) / (listMean (lastK 5 s5.m_avg_delta) + 1e-6)
    let diffData := List.zipWith vsub s5.current_points s5.prev_points
    let diffNoise :=
      if |npVar (flattenCoords diffData)| ≤ 1e-8 then
        let nd := normalSample stream 1e-10 diffData.length g1
        (List.zipWith vadd diffData nd.1, nd.2)
      else (diffData, g1)
    let d := pca diffNoise.1
    let mood := d.1 * 0.4 + d.2.1 * 0.3 + d.2.2 * 0.3
    ({ precession := precession
       instability := instability
       market_mood := mood
       avg_delta := delta
       cloud_entropy := ent
       regime := regime
       lower_bound_probability := lb
       vix_inflation_correlation := s5.vix_inflation_corr
       vix_rates_correlation := s5.vix_rates_corr
       signal := "NEUTRAL" }, s5, diffNoise.2)
  else
    ({ precession := 0
       instability := 0
       market_mood := 0
       avg_delta := delta
       cloud_entropy := ent
       regime := regime
       lower_bound_probability := lb
       vix_inflation_correlation := s5.vix_inflation_corr
       vix_rates_correlation := s5.vix_rates_corr
       signal := "NEUTRAL" }, s5, g1)

/-- generate_signal of EnhancedCloudSystem with its default thresholds
(threshold_precession = 0.15, threshold_instability = 1.5).  corr is the
engine's stored vix_inflation_corr; the source's NaN guard on it is modelled as
true (see mapForcesCore).  The two branches of the regime/correlation check are
textually identical in the source and are kept as such. -/
def generateSignal (corr : ℝ) (r : StepResult) : String :=
  if r.precession = 0 then "NEUTRAL"
  else if 0.15 < |r.precession| then
    if 0.05 < r.market_mood then
      if r.regime = "LOWER_BOUND_RISK" ∧ corr < -0.2 then
        (if 1.5 < r.instability then "STRONG_BUY" else "BUY")
      else
        (if 1.5 < r.instability then "STRONG_BUY" else "BUY")
    else if r.market_mood < -0.05 then
      if r.regime = "LOWER_BOUND_RISK" ∧ corr < -0.2 then
        (if 1.5 < r.instability then "STRONG_SELL" else "SELL")
      else
        (if 1.5 < r.instability then "STRONG_SELL" else "SELL")
    else "NEUTRAL"
  else "NEUTRAL"

/-- BalanceBreakerStrategy._generate_signal_with_params with the default
parameter dict (0.15/0.12 precession, 0.25/0.15 mood, -0.2 correlation trigger,
instability threshold 1.5).  The metrics-key membership tests of the source are
always true of a run_step metrics record and are modelled as such. -/
def strategySignalWithParams (r : StepResult) : String :=
  if r.precession = 0 then "NEUTRAL"
  else
    let pt1 : ℝ := if r.regime = "LOWER_BOUND_RISK" then 0.12 else 0.15
    let mt1 : ℝ := if r.regime = "LOWER_BOUND_RISK" then 0.15 else 0.25
    let boost := r.regime = "LOWER_BOUND_RISK" ∧ r.vix_inflation_correlation < -0.2
    let pt := if boost then pt1 * 0.8 else pt1
    let mt := if boost then mt1 * 0.8 else mt1
    if pt < |r.precession| then
      if mt < r.market_mood then (if 1.5 < r.instability then "STRONG_BUY" else "BUY")
      else if r.market_mood < -mt then (if 1.5 < r.instability then "STRONG_SELL" else "SELL")
      else "NEUTRAL"
    else "NEUTRAL"

/-- The signal decision procedure exactly as claim C1 states it: regime-selected
thresholds 0.12/0.15 in LOWER_BOUND_RISK and 0.15/0.25 otherwise, the 0.8
correlation adjustment, NEUTRAL inside the precession band, and the
mood/instability decision table. -/
def claimSignal (r : StepResult) : String :=
  if r.precession = 0 then "NEUTRAL"
  else
    let pt1 : ℝ := if r.regime = "LOWER_BOUND_RISK" then 0.12 else 0.15
    let mt1 : ℝ := if r.regime = "LOWER_BOUND_RISK" then 0.15 else 0.25
    let boost := r.regime = "LOWER_BOUND_RISK" ∧ r.vix_inflation_correlation < -0.2
    let pt := if boost then pt1 * 0.8 else pt1
    let mt := if boost then mt1 * 0.8 else mt1
    if |r.precession| ≤ pt then "NEUTRAL"
    else if mt < r.market_mood then (if 1.5 < r.instability then "STRONG_BUY" else "BUY")
    else if r.market_mood < -mt then (if 1.5 < r.instability then "STRONG_SELL" else "SELL")
    else "NEUTRAL"

/-- The engine's signal decision as the code actually computes it: fixed
precession threshold 0.15, fixed mood threshold 0.05, no dependence on regime
or on the stored correlation. -/
def amendedSignal (prec mood inst : ℝ) : String :=
  if prec = 0 then "NEUTRAL"
  else if |prec| ≤ 0.15 then "NEUTRAL"
  else if 0.05 < mood then (if 1.5 < inst then "STRONG_BUY" else "BUY")
  else if mood < -0.05 then (if 1.5 < inst then "STRONG_SELL" else "SELL")
  else "NEUTRAL"

/-- run_step: rebind the pair when given, then estimate the natural rate,
update correlations, redistribute the cloud, compute forces (passing the stored
pair, as the source does), rotate, compute metrics and attach the signal. -/
def runStep (stream : ℕ → ℝ) (pca : List Vec3 → Vec3) (pairArg : Option String)
    (md : Obs) (s : Engine) (g : ℕ) : StepResult × Engine × ℕ :=
  let s1 : Engine :=
    match pairArg with
    | some p => { s with pair := p }
    | none => s
  let s2 := estimateNaturalRate s1 md
  let s3 := calculateCorrelations s2 md
  let upd := updateCloudDistribution stream s3 md g
  let fs := mapMacroToForces upd.1 md (some upd.1.pair)
  let s5 := applyRotation fs.2 fs.1
  let met := calculateMetrics stream pca s5 upd.2
  let sig := generateSignal met.2.1.vix_inflation_corr met.1
  ({ met.1 with signal := sig }, met.2.1, met.2.2)

/-- Drive the engine over a list of observations, collecting the step results. -/
def runSteps (stream : ℕ → ℝ) (pca : List Vec3 → Vec3) :
    List Obs → Engine → ℕ → List StepResult × Engine × ℕ
  | [], s, g => ([], s, g)
  | o :: os, s, g =>
      let r := runStep stream pca none o s g
      let rest := runSteps stream pca os r.2.1 r.2.2
      (r.1 :: rest.1, rest.2.1, rest.2.2)

/-- Construct an engine and run it over an observation list, starting from the
given global stream position. -/
def runEngine (stream : ℕ → ℝ) (pca : List Vec3 → Vec3) (num_points : ℕ) (pair : String)
    (window_size : ℕ) (obsL : List Obs) (g : ℕ) : List StepResult × Engine × ℕ :=
  let ini := initEngine stream num_points pair window_size g
  runSteps stream pca obsL ini.1 ini.2

/-- The distinct unordered pairwise distances (each pair once, no
self-distances), as claim C5 describes the entropy input. -/
def specPairDists : List Vec3 → List ℝ
  | [] => []
  | p :: ps => (ps.map fun q => dist3 p q) ++ specPairDists ps

/-- The entropy claim C5 states: Shannon entropy of the histogram of the
N(N-1)/2 distinct pairwise distances. -/
def specCloudEntropy (ps : List Vec3) : ℝ := entropyOfCounts (histCounts (specPairDists ps))

/-- The bin counts the source's histogram actually realises, expressed through
the distinct-pair counts: each unordered pair twice, plus the N zero
self-distances landing in bin 0. -/
def amendedCounts (ps : List Vec3) : List ℕ :=
  (List.range 20).map fun k =>
    2 * countIn k (specPairDists ps) + if k = 0 then ps.length else 0

/-- Concrete inputs for the counterexamples and witnesses. -/
def obsVIX20 : Obs := fun k => if k = "VIX" then some 20 else none

def obsVIX35 : Obs := fun k => if k = "VIX" then some 35 else none

def obsVIX25 : Obs := fun k => if k = "VIX" then some 25 else none

def obsEmpty : Obs := fun _ => none

def obs10Y : Obs := fun k => if k = "US-JP_10Y" then some 10 else none

/-- A constant first-principal-component model for the library PCA. -/
def pcaConst : List Vec3 → Vec3 := fun _ => (1, 0, 0)

/-- A metrics record on which the engine signal and the claimed procedure differ. -/
def exMetricsC1 : StepResult :=
  { precession := 0.2
    instability := 0
    market_mood := 0.1
    avg_delta := 0
    cloud_entropy := 0
    regime := "LOWER_BOUND_RISK"
    lower_bound_probability := 0.5
    vix_inflation_correlation := 0
    vix_rates_correlation := 0
    signal := "NEUTRAL" }

/-- Stream for the C4 interleaving counterexample: engine A's redistribution
draw (positions 6,7) is distinguishable, everything from position 8 on is 0. -/
def exStream4 : ℕ → ℝ := fun n => if n = 6 then 3 else if n = 7 then 4 else 0

/-- The interleaved schedule construct A, construct B, step A, step B on the
shared global stream: B's construction reseeds the global position, so A's step
and B's step consume different stream segments. -/
def interleavedPair : StepResult × StepResult :=
  let a := initEngine exStream4 1 "USDJPY" 60 0
  let b := initEngine exStream4 1 "USDJPY" 60 a.2
  let ra := runStep exStream4 pcaConst none obsVIX35 a.1 b.2
  let rb := runStep exStream4 pcaConst none obsVIX35 b.1 ra.2.2
  (ra.1, rb.1)

/-- Stream for the C5 counterexample: the first redistribution of a 2-point
engine (positions 12..17) yields the cloud [(0,0,0),(1,0,0)]. -/
def exStream5 : ℕ → ℝ := fun n => if n = 15 then 1 else 0

/-- First step of a 2-point engine on an empty observation under exStream5. -/
def exStep5 : StepResult × Engine × ℕ :=
  let ini := initEngine exStream5 2 "USDJPY" 60 0
  runStep exStream5 pcaConst none obsEmpty ini.1 ini.2

end

section Helpers

/-- Projections through the state transformers, used to track which fields a
pipeline stage can touch. -/
theorem pair_estimate (s : Engine) (md : Obs) : (estimateNaturalRate s md).pair = s.pair := rfl

theorem pair_corr (s : Engine) (md : Obs) : (calculateCorrelations s md).pair = s.pair := by
  simp only [calculateCorrelations]
  repeat' split
  all_goals rfl

theorem pair_update (stream : ℕ → ℝ) (s : Engine) (md : Obs) (g : ℕ) :
    (updateCloudDistribution stream s md g).1.pair = s.pair := rfl

theorem pair_rotation (s : Engine) (f : Vec3) : (applyRotation s f).pair = s.pair := rfl

theorem pair_metrics (stream : ℕ → ℝ) (pca : List Vec3 → Vec3) (s : Engine) (g : ℕ) :
    (calculateMetrics stream pca s g).2.1.pair = s.pair := by
  simp only [calculateMetrics]
  split
  all_goals rfl

theorem mapForces_pair (s : Engine) (md : Obs) (p : String) :
    (mapMacroToForces s md (some p)).2.pair = p := rfl

theorem signal_membership (corr : ℝ) (r : StepResult) :
    generateSignal corr r ∈ (["NEUTRAL", "BUY", "STRONG_BUY", "SELL", "STRONG_SELL"] : List String) := by
  unfold generateSignal
  split_ifs
  all_goals simp

end Helpers

/-- C1, counterexample.  On a metrics record with precession 0.2, market mood
0.1, instability 0, regime LOWER_BOUND_RISK and stored correlation 0, the
engine's generate_signal returns BUY while the procedure the claim states
returns NEUTRAL (its LOWER_BOUND_RISK mood threshold 0.15 exceeds 0.1). -/
theorem C1_counterexample :
    generateSignal 0 exMetricsC1 = "BUY" ∧ claimSignal exMetricsC1 = "NEUTRAL" ∧
      generateSignal 0 exMetricsC1 ≠ claimSignal exMetricsC1 := by
  have habs : |(0.2 : ℝ)| = 0.2 := abs_of_pos (by norm_num)
  have h1 : generateSignal 0 exMetricsC1 = "BUY" := by
    simp only [generateSignal, exMetricsC1]
    rw [habs]
    norm_num
  have h2 : claimSignal exMetricsC1 = "NEUTRAL" := by
    simp only [claimSignal, exMetricsC1]
    rw [habs]
    norm_num
  refine ⟨h1, h2, ?_⟩
  rw [h1, h2]
  decide

set_option maxHeartbeats 1600000 in
/-- C1, amended.  The StepResult signal produced by the engine follows a fixed
decision table: precession threshold 0.15 and mood threshold 0.05 irrespective
of regime and correlation (both of which never change the outcome); the
regime-conditioned §4.9 procedure of the claim is implemented not by the engine
but by the strategy layer (_generate_signal_with_params with its default
parameters), which matches the claimed procedure on every metrics record. -/
theorem C1_amended :
    (∀ (corr : ℝ) (r : StepResult),
        generateSignal corr r = amendedSignal r.precession r.market_mood r.instability) ∧
    (∀ r : StepResult, strategySignalWithParams r = claimSignal r) := by
  constructor
  · intro corr r
    unfold generateSignal amendedSignal
    split_ifs
    all_goals first | rfl | linarith
  · intro r
    simp only [strategySignalWithParams, claimSignal]
    split_ifs
    all_goals first | rfl | linarith

theorem estimate_nr_some (s : Engine) (r : ℝ) (md : Obs) (h : s.natural_rate = some r) :
    (estimateNaturalRate s md).natural_rate =
      some (0.95 * r + 0.05 * rawNaturalRate s.pair md) := by
  simp only [estimateNaturalRate]
  rw [h]

/-- C2, counterexample.  A freshly constructed engine holds natural_rate 0.5
(not "unset"); the first estimate call on an observation with US-JP_10Y = 10
returns the smoothed 0.95·0.5 + 0.05·10 = 0.975, not the raw estimate 10 the
claim predicts. -/
theorem C2_counterexample :
    (estimateNaturalRate (initEngine (fun _ => 0) 300 "USDJPY" 60 0).1 obs10Y).natural_rate =
        some 0.975 ∧
      rawNaturalRate "USDJPY" obs10Y = 10 ∧ (0.975 : ℝ) ≠ 10 := by
  have hraw : rawNaturalRate "USDJPY" obs10Y = 10 := by
    have h10 : obs10Y (key10Y (getCurrencyCode "USDJPY")) = some 10 := rfl
    have hcpi : obs10Y (keyCPI (getCurrencyCode "USDJPY")) = none := rfl
    simp only [rawNaturalRate, getObs]
    rw [h10, hcpi]
    norm_num [Option.getD]
  refine ⟨?_, hraw, by norm_num⟩
  have h0 : (initEngine (fun _ => 0) 300 "USDJPY" 60 0).1.natural_rate = some 0.5 := rfl
  have hp : (initEngine (fun _ => 0) 300 "USDJPY" 60 0).1.pair = "USDJPY" := rfl
  rw [estimate_nr_some _ _ _ h0, hp, hraw]
  norm_num

/-- C2, amended.  The estimator state is initialised to 0.5 at construction,
and every call (the first one included) returns the EMA smoothing
0.95·prev + 0.05·(s10 - ci/2) of the stored value; the "unset" branch of the
source is unreachable from a constructed engine. -/
theorem C2_amended :
    (∀ (s : Engine) (r : ℝ) (md : Obs),
        (estimateNaturalRate { s with natural_rate := some r } md).natural_rate =
          some (0.95 * r + 0.05 * rawNaturalRate s.pair md)) ∧
    (∀ (stream : ℕ → ℝ) (n : ℕ) (p : String) (w g : ℕ),
        (initEngine stream n p w g).1.natural_rate = some 0.5) :=
  ⟨fun _ _ _ => rfl, fun _ _ _ _ _ => rfl⟩

theorem tanh_one_pos : 0 < Real.tanh 1 := by
  rw [Real.tanh_eq_sinh_div_cosh]
  exact div_pos (by rw [Real.sinh_pos_iff]; norm_num) (Real.cosh_pos 1)

theorem redist_x_eq (a b m : ℝ) (hm : m = 1 ∨ m = -1) :
    Real.tanh ((0.5 * (a * m) + 0.5 * (b * m)) / 2) =
      Real.tanh ((0.5 * a + 0.5 * b) / 2) * m := by
  rcases hm with h | h <;> subst h
  · ring_nf
  · rw [show (0.5 * (a * -1) + 0.5 * (b * -1)) / 2 = -((0.5 * a + 0.5 * b) / 2) from by ring,
      Real.tanh_neg]
    ring

theorem redist_y_eq (a m : ℝ) (hm : m = 1 ∨ m = -1) :
    Real.tanh (a * m / 3) = Real.tanh (a / 3) * m := by
  rcases hm with h | h <;> subst h
  · ring_nf
  · rw [show a * -1 / 3 = -(a / 3) from by ring, Real.tanh_neg]
    ring

/-- C6, counterexample.  For the inverted pair EURUSD and an observation with
VIX = 35, the redistribution mean's risk component is -tanh 1 while the force
mapper's unamplified fz is +tanh 1: update_cloud_distribution omits the
inversion multiplier on the risk axis. -/
theorem C6_counterexample :
    (redistMean "EURUSD" obsVIX35).2.2 ≠ (rawForces "EURUSD" obsVIX35).2.2 := by
  have hv : getObs obsVIX35 "VIX" 20 = 35 := rfl
  have hc : getCurrencyCode "EURUSD" = "EU" := rfl
  have h1 : (redistMean "EURUSD" obsVIX35).2.2 = -Real.tanh 1 := by
    simp only [redistMean, hv, hc, isInvertedPair]
    norm_num
  have h2 : (rawForces "EURUSD" obsVIX35).2.2 = Real.tanh 1 := by
    simp only [rawForces, hv, hc, isInvertedPair]
    norm_num
  rw [h1, h2]
  have := tanh_one_pos
  intro heq
  linarith

/-- C6, amended.  The redistribution mean's monetary and inflation components
equal the force mapper's unamplified fx and fy for every pair and observation
(tanh is odd, so applying the inversion multiplier before or after the bounding
agrees); the risk component equals the unamplified fz for non-inverted pairs
but equals its negation for inverted pairs, because update_cloud_distribution
never applies the inversion multiplier to the risk factor. -/
theorem C6_amended (pair : String) (md : Obs) :
    (redistMean pair md).1 = (rawForces pair md).1 ∧
    (redistMean pair md).2.1 = (rawForces pair md).2.1 ∧
    (redistMean pair md).2.2 =
      (if isInvertedPair pair then -(rawForces pair md).2.2 else (rawForces pair md).2.2) := by
  have hm : (if isInvertedPair pair = true then (-1 : ℝ) else 1) = 1 ∨
      (if isInvertedPair pair = true then (-1 : ℝ) else 1) = -1 := by
    split_ifs <;> norm_num
  refine ⟨?_, ?_, ?_⟩
  · simp only [redistMean, rawForces]
    exact redist_x_eq _ _ _ hm
  · simp only [redistMean, rawForces]
    exact redist_y_eq _ _ hm
  · simp only [redistMean, rawForces]
    cases hinv : isInvertedPair pair <;>
      by_cases hJP : getCurrencyCode pair = "JP" <;>
        by_cases hAU : getCurrencyCode pair = "AU" <;>
          simp [hJP, hAU]

/-- C7, confirmed.  map_macro_to_forces multiplies fx and fy by
1 + 0.5·|vix_inflation_corr| exactly when the regime is LOWER_BOUND_RISK, the
observed VIX exceeds 20 and the stored correlation is below -0.1, leaving fz
untouched; in every other case all three forces equal the unamplified
transforms. -/
theorem C7_regime_amplification (pair : String) (md : Obs) (regime : String) (corr : ℝ) :
    mapForcesCore pair md regime corr =
      if regime = "LOWER_BOUND_RISK" ∧ 20 < getObs md "VIX" 20 ∧ corr < -0.1 then
        ((rawForces pair md).1 * (1 + 0.5 * |corr|),
         (rawForces pair md).2.1 * (1 + 0.5 * |corr|), (rawForces pair md).2.2)
      else rawForces pair md := by
  simp only [mapForcesCore]
  split_ifs with h1 h2 h3 h3 h3
  · rfl
  · exact absurd ⟨h1.1, h1.2, h2⟩ h3
  · exact absurd h3.2.2 h2
  · rfl
  · exact absurd ⟨h3.1, h3.2.1⟩ h1
  · rfl

/-- C9, confirmed.  run_step is total on the model (every observation record,
including ones with absent or unknown keys, and every engine state produce a
StepResult), and the attached signal is always one of the five strings. -/
theorem C9_signal_range (stream : ℕ → ℝ) (pca : List Vec3 → Vec3)
    (pairArg : Option String) (md : Obs) (s : Engine) (g : ℕ) :
    (runStep stream pca pairArg md s g).1.signal ∈
      (["NEUTRAL", "BUY", "STRONG_BUY", "SELL", "STRONG_SELL"] : List String) :=
  signal_membership _ _

/-- C10, confirmed.  Passing a pair to run_step overwrites the stored pair and
the new pair persists into later pair-less steps; a step with a pair argument
is the same as a pair-less step from a state whose pair field was rebound; the
force mapper rebinds the stored pair the same way. -/
theorem C10_pair_rebinding :
    (∀ (stream : ℕ → ℝ) (pca : List Vec3 → Vec3) (p : String) (md : Obs) (s : Engine) (g : ℕ),
        (runStep stream pca (some p) md s g).2.1.pair = p) ∧
    (∀ (stream : ℕ → ℝ) (pca : List Vec3 → Vec3) (md : Obs) (s : Engine) (g : ℕ),
        (runStep stream pca none md s g).2.1.pair = s.pair) ∧
    (∀ (stream : ℕ → ℝ) (pca : List Vec3 → Vec3) (p : String) (md : Obs) (s : Engine) (g : ℕ),
        runStep stream pca (some p) md s g = runStep stream pca none md { s with pair := p } g) ∧
    (∀ (s : Engine) (md : Obs) (p : String), (mapMacroToForces s md (some p)).2.pair = p) := by
  refine ⟨?_, ?_, fun _ _ _ _ _ _ => rfl, fun _ _ _ => rfl⟩
  · intro stream pca p md s g
    simp only [runStep, pair_metrics, pair_rotation, mapForces_pair, pair_update, pair_corr,
      pair_estimate]
  · intro stream pca md s g
    simp only [runStep, pair_metrics, pair_rotation, mapForces_pair, pair_update, pair_corr,
      pair_estimate]

section PipelineProjections

theorem prev_metrics (stream : ℕ → ℝ) (pca : List Vec3 → Vec3) (s : Engine) (g : ℕ) :
    (calculateMetrics stream pca s g).2.1.prev_points = s.prev_points := by
  simp only [calculateMetrics]
  split
  all_goals rfl

theorem cur_metrics (stream : ℕ → ℝ) (pca : List Vec3 → Vec3) (s : Engine) (g : ℕ) :
    (calculateMetrics stream pca s g).2.1.current_points = s.current_points := by
  simp only [calculateMetrics]
  split
  all_goals rfl

theorem cur_mapForces (s : Engine) (md : Obs) (pa : Option String) :
    (mapMacroToForces s md pa).2.current_points = s.current_points := by
  cases pa
  all_goals rfl

theorem scale_mapForces (s : Engine) (md : Obs) (pa : Option String) :
    (mapMacroToForces s md pa).2.scale = s.scale := by
  cases pa
  all_goals rfl

theorem scale_estimate (s : Engine) (md : Obs) : (estimateNaturalRate s md).scale = s.scale := rfl

theorem scale_corr (s : Engine) (md : Obs) : (calculateCorrelations s md).scale = s.scale := by
  simp only [calculateCorrelations]
  repeat' split
  all_goals rfl

theorem scale_update (stream : ℕ → ℝ) (s : Engine) (md : Obs) (g : ℕ) :
    (updateCloudDistribution stream s md g).1.scale = s.scale := rfl

end PipelineProjections

/-- The engine state after run_step's pair rebind, natural-rate estimate and
correlation update, immediately before cloud redistribution. -/
noncomputable def preRedistState (pairArg : Option String) (md : Obs) (s : Engine) : Engine :=
  calculateCorrelations
    (estimateNaturalRate (match pairArg with | some p => { s with pair := p } | none => s) md) md

/-- The redistribution stage of the step: state with the freshly sampled cloud,
plus the advanced global stream position. -/
noncomputable def redistributed (stream : ℕ → ℝ) (pairArg : Option String) (md : Obs) (s : Engine) (g : ℕ) :
    Engine × ℕ :=
  updateCloudDistribution stream (preRedistState pairArg md s) md g

/-- The rotation forces of the step, computed as run_step computes them. -/
noncomputable def stepForces (stream : ℕ → ℝ) (pairArg : Option String) (md : Obs) (s : Engine) (g : ℕ) :
    Vec3 :=
  (mapMacroToForces (redistributed stream pairArg md s g).1 md
    (some (redistributed stream pairArg md s g).1.pair)).1

/-- C8, confirmed.  At the moment rotation is applied the stored previous cloud
is overwritten with the post-redistribution cloud of the same step, so after
the step prev_points is exactly the redistributed pre-rotation cloud and
current_points is exactly its rotation by the step's forces: the displacement
current - previous reflects rotation only, relative to the freshly
redistributed cloud. -/
theorem C8_prev_is_post_redistribution (stream : ℕ → ℝ) (pca : List Vec3 → Vec3)
    (pairArg : Option String) (md : Obs) (s : Engine) (g : ℕ) :
    (runStep stream pca pairArg md s g).2.1.prev_points =
      (redistributed stream pairArg md s g).1.current_points ∧
    (runStep stream pca pairArg md s g).2.1.current_points =
      ((redistributed stream pairArg md s g).1.current_points).map
        (composedRot (stepForces stream pairArg md s g).1
          (stepForces stream pairArg md s g).2.1
          (stepForces stream pairArg md s g).2.2
          (redistributed stream pairArg md s g).1.scale) := by
  constructor
  · simp only [runStep, prev_metrics, redistributed, preRedistState]
    show (applyRotation _ _).prev_points = _
    simp only [applyRotation, cur_mapForces]
  · simp only [runStep, cur_metrics, redistributed, preRedistState, stepForces]
    show (applyRotation _ _).current_points = _
    simp only [applyRotation, cur_mapForces, scale_mapForces]

/-- C4, amended.  Because construction reseeds the process-global generator to
the fixed seed, a constructed engine run over an observation list is
independent of the global stream position it starts from: running facade A to
completion and then facade B (same parameters, same observations) yields
identical StepResult sequences.  The claim's stronger statement — determinism
under arbitrary interleaving of the two facades' construction and stepping —
fails, because the sampler state is process-global (see the counterexample). -/
theorem C4_amended (stream : ℕ → ℝ) (pca : List Vec3 → Vec3) (n : ℕ) (pair : String)
    (w : ℕ) (obsL : List Obs) (g g2 : ℕ) :
    runEngine stream pca n pair w obsL g = runEngine stream pca n pair w obsL g2 := rfl

theorem runSteps_cons (stream : ℕ → ℝ) (pca : List Vec3 → Vec3) (o : Obs) (os : List Obs)
    (s : Engine) (g : ℕ) :
    (runSteps stream pca (o :: os) s g).1 =
      (runStep stream pca none o s g).1 ::
        (runSteps stream pca os (runStep stream pca none o s g).2.1
          (runStep stream pca none o s g).2.2).1 := rfl

theorem runSteps_cons_state (stream : ℕ → ℝ) (pca : List Vec3 → Vec3) (o : Obs) (os : List Obs)
    (s : Engine) (g : ℕ) :
    (runSteps stream pca (o :: os) s g).2 =
      (runSteps stream pca os (runStep stream pca none o s g).2.1
        (runStep stream pca none o s g).2.2).2 := rfl

theorem pushWindow_length {α : Type} (w : ℕ) (x : α) (l : List α) (h : l.length < w) :
    (pushWindow w x l).length = l.length + 1 := by
  simp only [pushWindow]
  rw [if_neg]
  · simp
  · simp
    omega

/-- Record-update form of estimate_natural_rate. -/
theorem estimate_eq (s : Engine) (md : Obs) :
    estimateNaturalRate s md =
      { s with obs_history := pushWindow s.window_size md s.obs_history
               natural_rate := some (match s.natural_rate with
                 | none => rawNaturalRate s.pair md
                 | some prev => 0.95 * prev + 0.05 * rawNaturalRate s.pair md)
               natural_rate_history := pushWindow s.window_size
                 (match s.natural_rate with
                  | none => rawNaturalRate s.pair md
                  | some prev => 0.95 * prev + 0.05 * rawNaturalRate s.pair md)
                 s.natural_rate_history } := rfl

/-- Record-update form of update_cloud_distribution; the covariance argument is
irrelevant to the model sampler, so the baseline matrix stands in for the
regime-selected one. -/
theorem update_eq (stream : ℕ → ℝ) (s : Engine) (md : Obs) (g : ℕ) :
    updateCloudDistribution stream s md g =
      ({ s with current_points :=
          (mvnSample stream (redistMean s.pair md) baselineCov s.num_points g).1 },
       g + 3 * s.num_points) := rfl

theorem mapForces_some_eq (s : Engine) (md : Obs) (p : String) :
    mapMacroToForces s md (some p) =
      (mapForcesCore p md (detectMarketRegime { s with pair := p }) s.vix_inflation_corr,
       { s with pair := p }) := rfl

theorem applyRotation_eq (s : Engine) (f : Vec3) :
    applyRotation s f =
      { s with prev_points := s.current_points
               current_points := s.current_points.map (composedRot f.1 f.2.1 f.2.2 s.scale) } := rfl

/-- calculate_correlations when only VIX is present in the observation and the
inflation and rate histories are empty: the VIX value is pushed and both
correlations keep their previous values. -/
theorem corr_eq_vixOnly (s : Engine) (md : Obs) (v : ℝ)
    (h1 : s.inflation_exp_history = []) (h2 : s.interest_rate_history = [])
    (hv : md "VIX" = some v)
    (hc : md (keyCPI (getCurrencyCode s.pair)) = none)
    (hr : md (key10Y (getCurrencyCode s.pair)) = none) :
    calculateCorrelations s md =
      { s with vix_history := pushWindow s.window_size v s.vix_history } := by
  simp only [calculateCorrelations, hv, hc, hr, h1, h2]
  norm_num

/-- calculate_correlations on an observation carrying none of the tracked keys:
the state is unchanged. -/
theorem corr_eq_noKeys (s : Engine) (md : Obs)
    (h1 : s.inflation_exp_history = []) (h2 : s.interest_rate_history = [])
    (hv : md "VIX" = none)
    (hc : md (keyCPI (getCurrencyCode s.pair)) = none)
    (hr : md (key10Y (getCurrencyCode s.pair)) = none) :
    calculateCorrelations s md = s := by
  simp only [calculateCorrelations, hv, hc, hr, h1, h2]
  norm_num

theorem metrics_regime (stream : ℕ → ℝ) (pca : List Vec3 → Vec3) (s : Engine) (g : ℕ) :
    (calculateMetrics stream pca s g).1.regime = detectMarketRegime s := by
  simp only [calculateMetrics]
  split
  all_goals rfl

theorem metrics_derived_zero (stream : ℕ → ℝ) (pca : List Vec3 → Vec3) (s : Engine) (g : ℕ)
    (h : s.m_avg_delta.length + 1 ≤ 5) :
    (calculateMetrics stream pca s g).1.precession = 0 ∧
    (calculateMetrics stream pca s g).1.instability = 0 ∧
    (calculateMetrics stream pca s g).1.market_mood = 0 := by
  have hcond : ¬ 5 < (s.m_avg_delta ++ [listMean (List.zipWith dist3 s.current_points
      s.prev_points)]).length := by
    simp
    omega
  simp only [calculateMetrics]
  rw [if_neg hcond]
  exact ⟨rfl, rfl, rfl⟩

theorem signal_of_prec_zero (corr : ℝ) (r : StepResult) (h : r.precession = 0) :
    generateSignal corr r = "NEUTRAL" := by
  simp [generateSignal, h]

/-- Regime detection in terms of log 2: the lower-bound probability
1/(1+exp(2·nr)) is below the threshold 1/3 exactly when 2·nr exceeds log 2. -/
theorem detect_eq_log (s : Engine) (r : ℝ) (hpsi : s.psi = 1.5) (hlb : s.lower_bound = 0)
    (hnr : s.natural_rate = some r) (hh : s.natural_rate_history ≠ []) :
    detectMarketRegime s =
      if Real.log 2 < 2 * r then "TARGET_EQUILIBRIUM" else "LOWER_BOUND_RISK" := by
  unfold detectMarketRegime calculateLowerBoundProbability
  rw [if_neg hh, hnr, hpsi, hlb]
  have hiff : 1 / (1 + Real.exp (2 * (r - 0))) < (1.5 - 1) / 1.5 ↔ Real.log 2 < 2 * r := by
    rw [show 2 * (r - 0) = 2 * r by ring, show ((1.5 : ℝ) - 1) / 1.5 = 1 / 3 by norm_num]
    have hexp : (0 : ℝ) < 1 + Real.exp (2 * r) := by positivity
    rw [div_lt_div_iff hexp (by norm_num : (0 : ℝ) < 3)]
    constructor
    · intro h
      have h2 : (2 : ℝ) < Real.exp (2 * r) := by linarith
      exact (Real.log_lt_iff_lt_exp (by norm_num)).mpr h2
    · intro h
      have h2 : (2 : ℝ) < Real.exp (2 * r) := (Real.log_lt_iff_lt_exp (by norm_num)).mp h
      linarith
  rw [if_congr hiff rfl rfl]

/-- Invariant of the neutral-quiescent scenario: the deterministic part of the
engine state after k steps of {VIX: 20} from a fresh USDJPY engine. -/
def ScenarioInv (s : Engine) (k : ℕ) (r : ℝ) : Prop :=
  s.pair = "USDJPY" ∧ s.window_size = 60 ∧ s.psi = 1.5 ∧ s.lower_bound = 0 ∧
  s.natural_rate = some r ∧ s.inflation_exp_history = [] ∧ s.interest_rate_history = [] ∧
  s.natural_rate_history.length = k ∧ s.m_avg_delta.length = k ∧
  s.m_axis_angle.length = k ∧ s.m_rot_energy.length = k

theorem rawNaturalRate_vix20 : rawNaturalRate "USDJPY" obsVIX20 = 0 := by
  have h10 : obsVIX20 (key10Y (getCurrencyCode "USDJPY")) = none := rfl
  have hcpi : obsVIX20 (keyCPI (getCurrencyCode "USDJPY")) = none := rfl
  simp only [rawNaturalRate, getObs, h10, hcpi]
  norm_num

section MetricsProjections

theorem metrics_ws (stream : ℕ → ℝ) (pca : List Vec3 → Vec3) (s : Engine) (g : ℕ) :
    (calculateMetrics stream pca s g).2.1.window_size = s.window_size := by
  simp only [calculateMetrics]
  split
  all_goals rfl

theorem metrics_psi (stream : ℕ → ℝ) (pca : List Vec3 → Vec3) (s : Engine) (g : ℕ) :
    (calculateMetrics stream pca s g).2.1.psi = s.psi := by
  simp only [calculateMetrics]
  split
  all_goals rfl

theorem metrics_lb (stream : ℕ → ℝ) (pca : List Vec3 → Vec3) (s : Engine) (g : ℕ) :
    (calculateMetrics stream pca s g).2.1.lower_bound = s.lower_bound := by
  simp only [calculateMetrics]
  split
  all_goals rfl

theorem metrics_nr (stream : ℕ → ℝ) (pca : List Vec3 → Vec3) (s : Engine) (g : ℕ) :
    (calculateMetrics stream pca s g).2.1.natural_rate = s.natural_rate := by
  simp only [calculateMetrics]
  split
  all_goals rfl

theorem metrics_inf (stream : ℕ → ℝ) (pca : List Vec3 → Vec3) (s : Engine) (g : ℕ) :
    (calculateMetrics stream pca s g).2.1.inflation_exp_history = s.inflation_exp_history := by
  simp only [calculateMetrics]
  split
  all_goals rfl

theorem metrics_int (stream : ℕ → ℝ) (pca : List Vec3 → Vec3) (s : Engine) (g : ℕ) :
    (calculateMetrics stream pca s g).2.1.interest_rate_history = s.interest_rate_history := by
  simp only [calculateMetrics]
  split
  all_goals rfl

theorem metrics_nrh (stream : ℕ → ℝ) (pca : List Vec3 → Vec3) (s : Engine) (g : ℕ) :
    (calculateMetrics stream pca s g).2.1.natural_rate_history = s.natural_rate_history := by
  simp only [calculateMetrics]
  split
  all_goals rfl

theorem metrics_len_avg (stream : ℕ → ℝ) (pca : List Vec3 → Vec3) (s : Engine) (g : ℕ) :
    (calculateMetrics stream pca s g).2.1.m_avg_delta.length = s.m_avg_delta.length + 1 := by
  simp only [calculateMetrics]
  split
  all_goals simp

theorem metrics_len_ang (stream : ℕ → ℝ) (pca : List Vec3 → Vec3) (s : Engine) (g : ℕ) :
    (calculateMetrics stream pca s g).2.1.m_axis_angle.length = s.m_axis_angle.length + 1 := by
  simp only [calculateMetrics]
  split
  all_goals simp

theorem metrics_len_rot (stream : ℕ → ℝ) (pca : List Vec3 → Vec3) (s : Engine) (g : ℕ) :
    (calculateMetrics stream pca s g).2.1.m_rot_energy.length = s.m_rot_energy.length + 1 := by
  simp only [calculateMetrics]
  split
  all_goals simp

end MetricsProjections

/-- One step of the neutral-quiescent scenario: the invariant advances with the
natural rate multiplied by 0.95, the recorded regime is decided by comparing
2·(0.95·r) with log 2, and while the metrics log is still short the derived
metrics are 0 and the signal is NEUTRAL. -/
theorem scenario_step (stream : ℕ → ℝ) (pca : List Vec3 → Vec3) (s : Engine) (g k : ℕ) (r : ℝ)
    (hInv : ScenarioInv s k r) (hk : k < 59) :
    ScenarioInv (runStep stream pca none obsVIX20 s g).2.1 (k + 1) (0.95 * r) ∧
    (runStep stream pca none obsVIX20 s g).1.regime =
      (if Real.log 2 < 2 * (0.95 * r) then "TARGET_EQUILIBRIUM" else "LOWER_BOUND_RISK") ∧
    (k + 1 ≤ 5 →
      (runStep stream pca none obsVIX20 s g).1.precession = 0 ∧
      (runStep stream pca none obsVIX20 s g).1.instability = 0 ∧
      (runStep stream pca none obsVIX20 s g).1.market_mood = 0 ∧
      (runStep stream pca none obsVIX20 s g).1.signal = "NEUTRAL") := by
  obtain ⟨hpair, hw, hpsi, hlb, hnr, hinf, hint, hnrh, hlen, hang, hrot⟩ := hInv
  have hs2 : estimateNaturalRate s obsVIX20 =
      { s with obs_history := pushWindow s.window_size obsVIX20 s.obs_history
               natural_rate := some (0.95 * r)
               natural_rate_history :=
                 pushWindow s.window_size (0.95 * r) s.natural_rate_history } := by
    rw [estimate_eq, hnr, hpair, rawNaturalRate_vix20]
    norm_num
  have hs3 : calculateCorrelations (estimateNaturalRate s obsVIX20) obsVIX20 =
      { s with obs_history := pushWindow s.window_size obsVIX20 s.obs_history
               natural_rate := some (0.95 * r)
               natural_rate_history :=
                 pushWindow s.window_size (0.95 * r) s.natural_rate_history
               vix_history := pushWindow s.window_size 20 s.vix_history } := by
    rw [hs2, corr_eq_vixOnly _ _ 20 (by simpa using hinf) (by simpa using hint) rfl
      (by simp only [hpair]; rfl) (by simp only [hpair]; rfl)]
  have hnrh_len : (pushWindow s.window_size (0.95 * r) s.natural_rate_history).length =
      k + 1 := by
    rw [hw, pushWindow_length]
    · rw [hnrh]
    · rw [hnrh]
      omega
  have hnrh_ne : pushWindow s.window_size (0.95 * r) s.natural_rate_history ≠ [] := by
    intro hnil
    rw [hnil] at hnrh_len
    simp at hnrh_len
  refine ⟨?_, ?_, ?_⟩
  · refine ⟨?_, ?_, ?_, ?_, ?_, ?_, ?_, ?_, ?_, ?_, ?_⟩
    · simp only [runStep, hs3, update_eq, mapForces_some_eq, applyRotation_eq, pair_metrics]
      exact hpair
    · simp only [runStep, hs3, update_eq, mapForces_some_eq, applyRotation_eq, metrics_ws]
      exact hw
    · simp only [runStep, hs3, update_eq, mapForces_some_eq, applyRotation_eq, metrics_psi]
      exact hpsi
    · simp only [runStep, hs3, update_eq, mapForces_some_eq, applyRotation_eq, metrics_lb]
      exact hlb
    · simp only [runStep, hs3, update_eq, mapForces_some_eq, applyRotation_eq, metrics_nr]
    · simp only [runStep, hs3, update_eq, mapForces_some_eq, applyRotation_eq, metrics_inf]
      exact hinf
    · simp only [runStep, hs3, update_eq, mapForces_some_eq, applyRotation_eq, metrics_int]
      exact hint
    · simp only [runStep, hs3, update_eq, mapForces_some_eq, applyRotation_eq, metrics_nrh]
      exact hnrh_len
    · simp only [runStep, hs3, update_eq, mapForces_some_eq, applyRotation_eq, metrics_len_avg]
      rw [hlen]
    · simp only [runStep, hs3, update_eq, mapForces_some_eq, applyRotation_eq, metrics_len_ang]
      rw [hang]
    · simp only [runStep, hs3, update_eq, mapForces_some_eq, applyRotation_eq, metrics_len_rot]
      rw [hrot]
  · simp only [runStep, hs3, update_eq, mapForces_some_eq, applyRotation_eq, metrics_regime]
    rw [detect_eq_log _ (0.95 * r)]
    · exact hpsi
    · exact hlb
    · rfl
    · exact hnrh_ne
  · intro h5
    have hpre : ∀ (g2 : ℕ) (s2 : Engine), s2.m_avg_delta.length = k →
        (calculateMetrics stream pca s2 g2).1.precession = 0 ∧
        (calculateMetrics stream pca s2 g2).1.instability = 0 ∧
        (calculateMetrics stream pca s2 g2).1.market_mood = 0 := by
      intro g2 s2 hlen2
      exact metrics_derived_zero stream pca s2 g2 (by omega)
    refine ⟨?_, ?_, ?_, ?_⟩
    · simp only [runStep, hs3, update_eq, mapForces_some_eq, applyRotation_eq]
      refine (hpre _ _ ?_).1
      exact hlen
    · simp only [runStep, hs3, update_eq, mapForces_some_eq, applyRotation_eq]
      refine (hpre _ _ ?_).2.1
      exact hlen
    · simp only [runStep, hs3, update_eq, mapForces_some_eq, applyRotation_eq]
      refine (hpre _ _ ?_).2.2
      exact hlen
    · simp only [runStep, hs3, update_eq, mapForces_some_eq, applyRotation_eq]
      refine signal_of_prec_zero _ _ ((hpre _ _ ?_).1)
      exact hlen

/-- Trace of the neutral-quiescent scenario: regimes are decided by comparing
0.95-powers of the starting natural rate against log 2, and every step while
the metrics log is short reports zero derived metrics and a NEUTRAL signal. -/
theorem scenario_run_facts (stream : ℕ → ℝ) (pca : List Vec3 → Vec3) :
    ∀ (n : ℕ) (s : Engine) (g k : ℕ) (r : ℝ), ScenarioInv s k r → k + n ≤ 58 →
      ((runSteps stream pca (List.replicate n obsVIX20) s g).1.map StepResult.regime =
        (List.range n).map fun i =>
          if Real.log 2 < 2 * (0.95 ^ (i + 1) * r) then "TARGET_EQUILIBRIUM"
          else "LOWER_BOUND_RISK") ∧
      (∀ res ∈ (runSteps stream pca (List.replicate n obsVIX20) s g).1.take (5 - k),
        res.precession = 0 ∧ res.instability = 0 ∧ res.market_mood = 0 ∧
          res.signal = "NEUTRAL") := by
  intro n
  induction n with
  | zero =>
    intro s g k r _ _
    constructor
    · rfl
    · intro res hres
      simp [runSteps] at hres
  | succ m ih =>
    intro s g k r hInv hle
    have hstep := scenario_step stream pca s g k r hInv (by omega)
    have hrest := ih (runStep stream pca none obsVIX20 s g).2.1
      (runStep stream pca none obsVIX20 s g).2.2 (k + 1) (0.95 * r) hstep.1 (by omega)
    rw [List.replicate_succ]
    constructor
    · rw [runSteps_cons, List.map_cons, hstep.2.1, hrest.1, List.range_succ_eq_map,
        List.map_cons, List.map_map]
      congr 1
      · norm_num
      · apply List.map_congr_left
        intro i _
        have harg : 2 * (0.95 ^ (i + 1) * (0.95 * r)) = 2 * ((0.95 : ℝ) ^ (i + 1 + 1) * r) := by
          rw [pow_succ]
          ring
        rw [harg]
        simp [Function.comp]
    · intro res hres
      rcases Nat.eq_zero_or_pos (5 - k) with h0 | hpos
      · rw [h0, List.take_zero] at hres
        simp at hres
      · have h5 : k + 1 ≤ 5 := by omega
        obtain ⟨t, ht⟩ : ∃ t, 5 - k = t + 1 := ⟨5 - k - 1, by omega⟩
        rw [runSteps_cons, ht, List.take_succ_cons] at hres
        rcases List.mem_cons.mp hres with hres | hres
        · rw [hres]
          exact hstep.2.2 h5
        · refine hrest.2 res ?_
          rw [show 5 - (k + 1) = t from by omega]
          exact hres

theorem scenario_inv_init (stream : ℕ → ℝ) :
    ScenarioInv (initEngine stream 300 "USDJPY" 60 0).1 0 0.5 := by
  refine ⟨rfl, rfl, rfl, ?_, rfl, rfl, rfl, rfl, rfl, rfl, rfl⟩
  show (0.0 : ℝ) = 0
  norm_num

/-- The neutral-quiescent scenario of claim C3: a fresh USDJPY engine with
defaults fed 10 observations {VIX: 20}. -/
noncomputable def scenarioRun (stream : ℕ → ℝ) (pca : List Vec3 → Vec3) : List StepResult :=
  (runEngine stream pca 300 "USDJPY" 60 (List.replicate 10 obsVIX20) 0).1

/-- C3, counterexample.  In the neutral-quiescent scenario the very first
step's recorded regime is TARGET_EQUILIBRIUM — the constructed engine starts
from natural_rate 0.5, giving lb_prob = 1/(1+exp(0.95)) < 1/3 — whereas the
claim asserts LOWER_BOUND_RISK on every one of the 10 steps. -/
theorem C3_counterexample :
    (((runEngine (fun _ => 0) pcaConst 300 "USDJPY" 60 (List.replicate 10 obsVIX20) 0).1.map
        StepResult.regime).head? = some "TARGET_EQUILIBRIUM") ∧
      "TARGET_EQUILIBRIUM" ≠ "LOWER_BOUND_RISK" := by
  have h0 : ScenarioInv (initEngine (fun _ => 0) 300 "USDJPY" 60 0).1 0 0.5 :=
    scenario_inv_init _
  have hstep := scenario_step (fun _ => 0) pcaConst
    (initEngine (fun _ => 0) 300 "USDJPY" 60 0).1
    (initEngine (fun _ => 0) 300 "USDJPY" 60 0).2 0 0.5 h0 (by omega)
  constructor
  · rw [show (runEngine (fun _ => 0) pcaConst 300 "USDJPY" 60 (List.replicate 10 obsVIX20) 0).1 =
        (runSteps (fun _ => 0) pcaConst (obsVIX20 :: List.replicate 9 obsVIX20)
          (initEngine (fun _ => 0) 300 "USDJPY" 60 0).1
          (initEngine (fun _ => 0) 300 "USDJPY" 60 0).2).1 from rfl]
    rw [runSteps_cons, List.map_cons, List.head?_cons]
    rw [hstep.2.1]
    rw [if_pos (Real.log_two_lt_d9.trans (by norm_num))]
  · decide

/-- C3, amended.  In the neutral-quiescent scenario (any stream / PCA model):
the recorded regime is TARGET_EQUILIBRIUM on steps 1-7 and LOWER_BOUND_RISK on
steps 8-10 (the smoothed natural rate 0.5·0.95^k crosses the (1/2)·log 2
threshold between steps 7 and 8), and the first 5 steps report precession,
instability and market mood 0 together with a NEUTRAL signal. -/
theorem C3_amended (stream : ℕ → ℝ) (pca : List Vec3 → Vec3) :
    (scenarioRun stream pca).map StepResult.regime =
      ["TARGET_EQUILIBRIUM", "TARGET_EQUILIBRIUM", "TARGET_EQUILIBRIUM", "TARGET_EQUILIBRIUM",
       "TARGET_EQUILIBRIUM", "TARGET_EQUILIBRIUM", "TARGET_EQUILIBRIUM",
       "LOWER_BOUND_RISK", "LOWER_BOUND_RISK", "LOWER_BOUND_RISK"] ∧
    ∀ res ∈ (scenarioRun stream pca).take 5,
      res.precession = 0 ∧ res.instability = 0 ∧ res.market_mood = 0 ∧
        res.signal = "NEUTRAL" := by
  have h0 : ScenarioInv (initEngine stream 300 "USDJPY" 60 0).1 0 0.5 :=
    scenario_inv_init _
  have hfacts := scenario_run_facts stream pca 10 (initEngine stream 300 "USDJPY" 60 0).1
    (initEngine stream 300 "USDJPY" 60 0).2 0 0.5 h0 (by omega)
  constructor
  · rw [show (scenarioRun stream pca) = (runSteps stream pca (List.replicate 10 obsVIX20)
        (initEngine stream 300 "USDJPY" 60 0).1 (initEngine stream 300 "USDJPY" 60 0).2).1
        from rfl]
    rw [hfacts.1]
    have hTE : ∀ c : ℝ, 0.6931471808 < c →
        (if Real.log 2 < c then "TARGET_EQUILIBRIUM" else "LOWER_BOUND_RISK") =
          "TARGET_EQUILIBRIUM" := fun c hc => if_pos (Real.log_two_lt_d9.trans hc)
    have hLB : ∀ c : ℝ, c < 0.6931471803 →
        (if Real.log 2 < c then "TARGET_EQUILIBRIUM" else "LOWER_BOUND_RISK") =
          "LOWER_BOUND_RISK" := fun c hc =>
      if_neg (not_lt.mpr (le_of_lt (hc.trans Real.log_two_gt_d9)))
    rw [show List.range 10 = [0, 1, 2, 3, 4, 5, 6, 7, 8, 9] from rfl]
    simp only [List.map_cons, List.map_nil]
    rw [hTE _ (by norm_num), hTE _ (by norm_num), hTE _ (by norm_num), hTE _ (by norm_num),
      hTE _ (by norm_num), hTE _ (by norm_num), hTE _ (by norm_num),
      hLB _ (by norm_num), hLB _ (by norm_num), hLB _ (by norm_num)]
  · exact hfacts.2

theorem listMean_single (x : ℝ) : listMean [x] = x := by
  simp [listMean]

theorem metrics_avg_delta (stream : ℕ → ℝ) (pca : List Vec3 → Vec3) (s : Engine) (g : ℕ) :
    (calculateMetrics stream pca s g).1.avg_delta =
      listMean (List.zipWith dist3 s.current_points s.prev_points) := by
  simp only [calculateMetrics]
  split
  all_goals rfl

theorem metrics_offset_cases (stream : ℕ → ℝ) (pca : List Vec3 → Vec3) (s : Engine) (g : ℕ)
    (h : s.m_avg_delta.length + 1 ≤ 5) :
    (calculateMetrics stream pca s g).2.2 = g ∨
    (calculateMetrics stream pca s g).2.2 = g + 3 * s.current_points.length := by
  have hcond : ¬ 5 < (s.m_avg_delta ++ [listMean (List.zipWith dist3 s.current_points
      s.prev_points)]).length := by
    simp
    omega
  simp only [calculateMetrics]
  rw [if_neg hcond]
  split
  · right
    rfl
  · left
    rfl

theorem np_estimate (s : Engine) (md : Obs) :
    (estimateNaturalRate s md).num_points = s.num_points := rfl

theorem corr_estimate (s : Engine) (md : Obs) :
    (estimateNaturalRate s md).vix_inflation_corr = s.vix_inflation_corr := rfl

theorem inf_estimate (s : Engine) (md : Obs) :
    (estimateNaturalRate s md).inflation_exp_history = s.inflation_exp_history := rfl

theorem int_estimate (s : Engine) (md : Obs) :
    (estimateNaturalRate s md).interest_rate_history = s.interest_rate_history := rfl

theorem rotX_zero (v : Vec3) : rotX 0 v = v := by
  obtain ⟨x, y, z⟩ := v
  simp [rotX]

theorem rotY_zero (v : Vec3) : rotY 0 v = v := by
  obtain ⟨x, y, z⟩ := v
  simp [rotY]

theorem composedRot_z_only (fz sc : ℝ) (v : Vec3) :
    composedRot 0 0 fz sc v = rotZ (fz * sc) v := by
  simp [composedRot, rotX_zero, rotY_zero]

theorem redistMean_jpy_vix35 : redistMean "USDJPY" obsVIX35 = (0, 0, Real.tanh 1) := by
  have h2 : obsVIX35 (key2Y "JP") = none := rfl
  have h10 : obsVIX35 (key10Y "JP") = none := rfl
  have hcpi : obsVIX35 (keyCPI "JP") = none := rfl
  have hv : obsVIX35 "VIX" = some 35 := rfl
  have hcode : getCurrencyCode "USDJPY" = "JP" := rfl
  have hinv : isInvertedPair "USDJPY" = false := rfl
  simp only [redistMean, getObs, hcode, hinv, h2, h10, hcpi, hv, Option.getD_some,
    Option.getD_none]
  rw [show ((35 : ℝ) - 20) / 15 = 1 by norm_num]
  norm_num [Real.tanh_zero]

theorem forces_jpy_vix35 (regime : String) :
    mapForcesCore "USDJPY" obsVIX35 regime 0 = (0, 0, Real.tanh 1) := by
  have h2 : obsVIX35 (key2Y "JP") = none := rfl
  have h10 : obsVIX35 (key10Y "JP") = none := rfl
  have hcpi : obsVIX35 (keyCPI "JP") = none := rfl
  have hv : obsVIX35 "VIX" = some 35 := rfl
  have hcode : getCurrencyCode "USDJPY" = "JP" := rfl
  have hinv : isInvertedPair "USDJPY" = false := rfl
  have hraw : rawForces "USDJPY" obsVIX35 = (0, 0, Real.tanh 1) := by
    simp only [rawForces, getObs, hcode, hinv, h2, h10, hcpi, hv, Option.getD_some,
      Option.getD_none]
    rw [show ((35 : ℝ) - 20) / 15 = 1 by norm_num]
    norm_num [Real.tanh_zero]
  simp only [mapForcesCore, hraw]
  split_ifs with h1 h2a
  · exact absurd h2a (by norm_num)
  · rfl
  · rfl

theorem tanh_one_lt_one : Real.tanh 1 < 1 := by
  rw [Real.tanh_eq_sinh_div_cosh, div_lt_one (Real.cosh_pos 1)]
  rw [Real.sinh_eq, Real.cosh_eq]
  have := Real.exp_pos (-1 : ℝ)
  linarith

theorem cos_small_angle_lt_one : Real.cos (Real.tanh 1 * 0.20) < 1 := by
  have hpos : 0 < Real.tanh 1 * 0.20 := mul_pos tanh_one_pos (by norm_num)
  have hlt : Real.tanh 1 * 0.20 < 2 * Real.pi := by
    have hpi := Real.pi_gt_three
    nlinarith [tanh_one_lt_one, tanh_one_pos]
  have hne : Real.cos (Real.tanh 1 * 0.20) ≠ 1 := by
    intro hc
    have := (Real.cos_eq_one_iff_of_lt_of_lt (by linarith) hlt).mp hc
    linarith
  exact lt_of_le_of_ne (Real.cos_le_one _) hne

theorem mavg_estimate (s : Engine) (md : Obs) :
    (estimateNaturalRate s md).m_avg_delta = s.m_avg_delta := rfl

theorem mavg_corr (s : Engine) (md : Obs) :
    (calculateCorrelations s md).m_avg_delta = s.m_avg_delta := by
  simp only [calculateCorrelations]
  repeat' split
  all_goals rfl

theorem np_corr (s : Engine) (md : Obs) :
    (calculateCorrelations s md).num_points = s.num_points := by
  simp only [calculateCorrelations]
  repeat' split
  all_goals rfl

/-- calculate_metrics never rewinds the global stream position. -/
theorem metrics_offset_ge (stream : ℕ → ℝ) (pca : List Vec3 → Vec3) (s : Engine) (g : ℕ) :
    g ≤ (calculateMetrics stream pca s g).2.2 := by
  simp only [calculateMetrics, normalSample]
  repeat' split
  all_goals first
    | omega
    | (simp only [Prod.fst, Prod.snd]; omega)
    | (simp; omega)

/-- The global stream position after a step is at least the position after the
step's redistribution draw (the PCA calls may consume further values). -/
theorem runStep_offset_lb (stream : ℕ → ℝ) (pca : List Vec3 → Vec3) (md : Obs) (s : Engine)
    (g : ℕ) :
    g + 3 * s.num_points ≤ (runStep stream pca none md s g).2.2 := by
  simp only [runStep, update_eq, mapForces_some_eq, applyRotation_eq, np_corr, np_estimate]
  exact metrics_offset_ge _ _ _ _

/-- avg_delta of one step on a fresh-like single-point USDJPY engine fed
{VIX: 35}: the redistributed point is (mean + raw draws) with mean
(0, 0, tanh 1), and the step rotates it about the z-axis by tanh 1 · 0.20. -/
theorem step_avg_delta_vix35 (stream : ℕ → ℝ) (pca : List Vec3 → Vec3) (s : Engine) (g : ℕ)
    (hpair : s.pair = "USDJPY") (hinf : s.inflation_exp_history = [])
    (hint : s.interest_rate_history = []) (hnum : s.num_points = 1)
    (hsc : s.scale = 0.20) (hcorr : s.vix_inflation_corr = 0) :
    (runStep stream pca none obsVIX35 s g).1.avg_delta =
      dist3 (rotZ (Real.tanh 1 * 0.20)
          (0 + stream (g + 3 * 0), 0 + stream (g + 3 * 0 + 1),
           Real.tanh 1 + stream (g + 3 * 0 + 2)))
        (0 + stream (g + 3 * 0), 0 + stream (g + 3 * 0 + 1),
         Real.tanh 1 + stream (g + 3 * 0 + 2)) := by
  have hs3 : calculateCorrelations (estimateNaturalRate s obsVIX35) obsVIX35 =
      { estimateNaturalRate s obsVIX35 with vix_history :=
          (pushWindow (estimateNaturalRate s obsVIX35).window_size 35
            (estimateNaturalRate s obsVIX35).vix_history) } := by
    refine corr_eq_vixOnly _ _ 35 ?_ ?_ rfl ?_ ?_
    · exact hinf
    · exact hint
    · rw [show (estimateNaturalRate s obsVIX35).pair = s.pair from rfl, hpair]
      rfl
    · rw [show (estimateNaturalRate s obsVIX35).pair = s.pair from rfl, hpair]
      rfl
  have hr1 : List.range 1 = [0] := rfl
  simp only [runStep, hs3, update_eq, mapForces_some_eq, applyRotation_eq, metrics_avg_delta,
    pair_estimate, np_estimate, scale_estimate, corr_estimate, hpair, hnum, hsc, hcorr,
    redistMean_jpy_vix35, forces_jpy_vix35, mvnSample, hr1, List.map_cons,
    List.map_nil, List.zipWith_cons_cons, List.zipWith_nil_right, composedRot_z_only,
    listMean_single]

theorem exStream4_big (n : ℕ) (hn : 8 ≤ n) : exStream4 n = 0 := by
  simp only [exStream4]
  rw [if_neg (by omega), if_neg (by omega)]

/-- C4, counterexample.  Construct A, construct B, step A, step B on the shared
global sampler: B's construction reseeds the global position, so A's step draws
the stream segment starting at position 6 (values 3, 4, 0) while B's step draws
a later all-zero segment.  A's first avg_delta is the positive displacement of
rotating (3, 4, tanh 1) about z, B's is 0: the two facades' StepResult
sequences differ under this interleaving, refuting determinism for arbitrary
interleavings. -/
theorem C4_counterexample : interleavedPair.1.avg_delta ≠ interleavedPair.2.avg_delta := by
  have hb2 : (initEngine exStream4 1 "USDJPY" 60 (initEngine exStream4 1 "USDJPY" 60 0).2).2
      = 6 := rfl
  have hA : interleavedPair.1.avg_delta =
      dist3 (rotZ (Real.tanh 1 * 0.20)
          (0 + exStream4 (6 + 3 * 0), 0 + exStream4 (6 + 3 * 0 + 1),
           Real.tanh 1 + exStream4 (6 + 3 * 0 + 2)))
        (0 + exStream4 (6 + 3 * 0), 0 + exStream4 (6 + 3 * 0 + 1),
         Real.tanh 1 + exStream4 (6 + 3 * 0 + 2)) := by
    show (runStep exStream4 pcaConst none obsVIX35 (initEngine exStream4 1 "USDJPY" 60 0).1
        (initEngine exStream4 1 "USDJPY" 60 (initEngine exStream4 1 "USDJPY" 60 0).2).2).1.avg_delta
        = _
    rw [hb2]
    exact step_avg_delta_vix35 exStream4 pcaConst _ 6 rfl rfl rfl rfl rfl
      (show (0.0 : ℝ) = 0 by norm_num)
  have he6 : exStream4 (6 + 3 * 0) = 3 := rfl
  have he7 : exStream4 (6 + 3 * 0 + 1) = 4 := rfl
  have he8 : exStream4 (6 + 3 * 0 + 2) = 0 := rfl
  rw [he6, he7, he8] at hA
  have hAval : interleavedPair.1.avg_delta =
      Real.sqrt (50 - 50 * Real.cos (Real.tanh 1 * 0.20)) := by
    rw [hA]
    simp only [dist3, norm3, vsub, rotZ]
    congr 1
    have hsc := Real.sin_sq_add_cos_sq (Real.tanh 1 * 0.20)
    linear_combination (25 : ℝ) * hsc
  have hApos : 0 < interleavedPair.1.avg_delta := by
    rw [hAval]
    refine Real.sqrt_pos.mpr ?_
    have := cos_small_angle_lt_one
    linarith
  have hX8 : 8 ≤ (runStep exStream4 pcaConst none obsVIX35
      (initEngine exStream4 1 "USDJPY" 60 0).1
      (initEngine exStream4 1 "USDJPY" 60 (initEngine exStream4 1 "USDJPY" 60 0).2).2).2.2 := by
    rw [hb2]
    have hlb := runStep_offset_lb exStream4 pcaConst obsVIX35
      (initEngine exStream4 1 "USDJPY" 60 0).1 6
    rw [show (initEngine exStream4 1 "USDJPY" 60 0).1.num_points = 1 from rfl] at hlb
    omega
  have hB : interleavedPair.2.avg_delta = 0 := by
    have hBeq := step_avg_delta_vix35 exStream4 pcaConst
      (initEngine exStream4 1 "USDJPY" 60 (initEngine exStream4 1 "USDJPY" 60 0).2).1
      ((runStep exStream4 pcaConst none obsVIX35 (initEngine exStream4 1 "USDJPY" 60 0).1
        (initEngine exStream4 1 "USDJPY" 60 (initEngine exStream4 1 "USDJPY" 60 0).2).2).2.2)
      rfl rfl rfl rfl rfl (show (0.0 : ℝ) = 0 by norm_num)
    rw [exStream4_big _ (by omega), exStream4_big _ (by omega), exStream4_big _ (by omega)]
      at hBeq
    show (runStep exStream4 pcaConst none obsVIX35
      (initEngine exStream4 1 "USDJPY" 60 (initEngine exStream4 1 "USDJPY" 60 0).2).1
      ((runStep exStream4 pcaConst none obsVIX35 (initEngine exStream4 1 "USDJPY" 60 0).1
        (initEngine exStream4 1 "USDJPY" 60 (initEngine exStream4 1 "USDJPY" 60 0).2).2).2.2)).1.avg_delta
      = 0
    rw [hBeq]
    simp only [dist3, norm3, vsub, rotZ]
    norm_num
  intro heq
  rw [hB] at heq
  linarith

theorem dist3_comm (p q : Vec3) : dist3 p q = dist3 q p := by
  simp only [dist3, norm3, vsub]
  congr 1
  ring

theorem dist3_self (p : Vec3) : dist3 p p = 0 := by
  simp [dist3, norm3, vsub]

theorem countIn_append (k : ℕ) (a b : List ℝ) :
    countIn k (a ++ b) = countIn k a + countIn k b := by
  simp [countIn]

theorem countIn_bind {α : Type} (k : ℕ) (l : List α) (f : α → List ℝ) :
    countIn k (l.bind f) = (l.map fun x => countIn k (f x)).sum := by
  induction l with
  | nil => simp [countIn]
  | cons a l ih => simp [List.cons_bind, countIn_append, ih]

theorem count_zero_bin (k : ℕ) :
    (if inBin k 0 then (1 : ℕ) else 0) = if k = 0 then 1 else 0 := by
  cases k with
  | zero =>
    rw [if_pos, if_pos rfl]
    exact ⟨by norm_num, Or.inr ⟨by norm_num, by norm_num⟩⟩
  | succ n =>
    rw [if_neg, if_neg (by omega)]
    rintro ⟨h1, _⟩
    have hpos : (0 : ℝ) < ((n : ℝ) + 1) / 4 := by positivity
    push_cast at h1
    linarith

theorem pairDists_cons (p : Vec3) (ps : List Vec3) :
    pairDists (p :: ps) =
      (dist3 p p :: ps.map (dist3 p)) ++ ps.bind (fun q => dist3 q p :: ps.map (dist3 q)) := by
  simp [pairDists, List.cons_bind]

/-- Bin counts of the source's full squareform histogram, through the counts of
the distinct unordered pairwise distances: each unordered pair twice, plus the
N self-distances falling in bin 0. -/
theorem countIn_pairDists (k : ℕ) (ps : List Vec3) :
    countIn k (pairDists ps) =
      2 * countIn k (specPairDists ps) + (if k = 0 then ps.length else 0) := by
  induction ps with
  | nil => simp [pairDists, specPairDists, countIn]
  | cons p ps ih =>
    rw [pairDists_cons, countIn_append]
    have hhead : countIn k (dist3 p p :: ps.map (dist3 p)) =
        (if k = 0 then 1 else 0) + countIn k (ps.map (dist3 p)) := by
      simp only [countIn, List.map_cons, List.sum_cons, dist3_self, count_zero_bin]
    have hbind : countIn k (ps.bind fun q => dist3 q p :: ps.map (dist3 q)) =
        countIn k (ps.map (dist3 p)) + countIn k (pairDists ps) := by
      rw [countIn_bind]
      have hsplit : (ps.map fun q => countIn k (dist3 q p :: ps.map (dist3 q))) =
          ps.map fun q => ((if inBin k (dist3 q p) then (1 : ℕ) else 0) +
            countIn k (ps.map (dist3 q))) := by
        apply List.map_congr_left
        intro q _
        simp [countIn]
      rw [hsplit, List.sum_map_add]
      congr 1
      · rw [show (ps.map fun q => if inBin k (dist3 q p) then (1 : ℕ) else 0) =
            ps.map fun q => if inBin k (dist3 p q) then (1 : ℕ) else 0 from
          List.map_congr_left fun q _ => by rw [dist3_comm]]
        simp [countIn, List.map_map]
        rfl
      · rw [pairDists, countIn_bind]
    rw [hhead, hbind, ih]
    have hspec : countIn k (specPairDists (p :: ps)) =
        countIn k (ps.map (dist3 p)) + countIn k (specPairDists ps) := by
      rw [show specPairDists (p :: ps) = (ps.map fun q => dist3 p q) ++ specPairDists ps
        from rfl, countIn_append]
    rw [hspec]
    by_cases hk : k = 0 <;> simp [hk] <;> omega

/-- C5, amended.  The entropy metric is the Shannon entropy (nats) of the
20-bin histogram over [0, 5] of ALL N² entries of the full squareform distance
matrix: relative to the claim's distinct-pair histogram, every unordered pair
is counted twice and the N zero self-distances are added to bin 0, and the
normalisation divides by the total of those counts. -/
theorem C5_amended (ps : List Vec3) :
    cloudEntropy ps = entropyOfCounts (amendedCounts ps) := by
  unfold cloudEntropy amendedCounts histCounts
  congr 1
  apply List.map_congr_left
  intro k _
  exact countIn_pairDists k ps

theorem metrics_entropy (stream : ℕ → ℝ) (pca : List Vec3 → Vec3) (s : Engine) (g : ℕ) :
    (calculateMetrics stream pca s g).1.cloud_entropy = cloudEntropy s.current_points := by
  simp only [calculateMetrics]
  split
  all_goals rfl

theorem runStep_entropy (stream : ℕ → ℝ) (pca : List Vec3 → Vec3) (pairArg : Option String)
    (md : Obs) (s : Engine) (g : ℕ) :
    (runStep stream pca pairArg md s g).1.cloud_entropy =
      cloudEntropy ((runStep stream pca pairArg md s g).2.1.current_points) := by
  simp only [runStep, metrics_entropy, cur_metrics]

theorem rotZ_zero (v : Vec3) : rotZ 0 v = v := by
  obtain ⟨x, y, z⟩ := v
  simp [rotZ]

theorem composedRot_zero (sc : ℝ) (v : Vec3) : composedRot 0 0 0 sc v = v := by
  simp [composedRot, rotX_zero, rotY_zero, rotZ_zero]

theorem redistMean_jpy_empty : redistMean "USDJPY" obsEmpty = (0, 0, 0) := by
  have hcode : getCurrencyCode "USDJPY" = "JP" := rfl
  have hinv : isInvertedPair "USDJPY" = false := rfl
  simp only [redistMean, getObs, hcode, hinv, obsEmpty, Option.getD_none]
  norm_num [Real.tanh_zero]

theorem forces_jpy_empty (regime : String) :
    mapForcesCore "USDJPY" obsEmpty regime 0 = (0, 0, 0) := by
  have hcode : getCurrencyCode "USDJPY" = "JP" := rfl
  have hinv : isInvertedPair "USDJPY" = false := rfl
  have hraw : rawForces "USDJPY" obsEmpty = (0, 0, 0) := by
    simp only [rawForces, getObs, hcode, hinv, obsEmpty, Option.getD_none]
    norm_num [Real.tanh_zero]
  simp only [mapForcesCore, hraw, getObs, obsEmpty, Option.getD_none]
  rw [if_neg]
  rintro ⟨-, h⟩
  norm_num at h

/-- The cloud after one step of a fresh-like two-point USDJPY engine on an
empty observation: zero mean, zero forces, so the redistributed draws pass
through the rotation unchanged. -/
theorem step_points_empty (stream : ℕ → ℝ) (pca : List Vec3 → Vec3) (s : Engine) (g : ℕ)
    (hpair : s.pair = "USDJPY") (hinf : s.inflation_exp_history = [])
    (hint : s.interest_rate_history = []) (hnum : s.num_points = 2)
    (hcorr : s.vix_inflation_corr = 0) :
    (runStep stream pca none obsEmpty s g).2.1.current_points =
      [(0 + stream (g + 3 * 0), 0 + stream (g + 3 * 0 + 1), 0 + stream (g + 3 * 0 + 2)),
       (0 + stream (g + 3 * 1), 0 + stream (g + 3 * 1 + 1), 0 + stream (g + 3 * 1 + 2))] := by
  have hs3 : calculateCorrelations (estimateNaturalRate s obsEmpty) obsEmpty =
      estimateNaturalRate s obsEmpty := by
    refine corr_eq_noKeys _ _ ?_ ?_ rfl ?_ ?_
    · exact hinf
    · exact hint
    · rw [show (estimateNaturalRate s obsEmpty).pair = s.pair from rfl, hpair]
      rfl
    · rw [show (estimateNaturalRate s obsEmpty).pair = s.pair from rfl, hpair]
      rfl
  have hr2 : List.range 2 = [0, 1] := rfl
  simp only [runStep, hs3, update_eq, mapForces_some_eq, applyRotation_eq, cur_metrics,
    pair_estimate, np_estimate, scale_estimate, corr_estimate, hpair, hnum, hcorr,
    redistMean_jpy_empty, forces_jpy_empty, mvnSample, hr2, List.map_cons, List.map_nil,
    composedRot_zero]

/-- C5: counterexample.  For the 2-point cloud [(0,0,0),(1,0,0)] reached by
exStep5, the source histograms the full squareform matrix [0,1,1,0] (two zero
self-distances plus the unordered pair twice), giving entropy log 2, while the
claimed histogram of the single distinct pairwise distance [1] gives entropy 0. -/
theorem C5_counterexample :
    exStep5.1.cloud_entropy = Real.log 2 ∧
      specCloudEntropy exStep5.2.1.current_points = 0 ∧ Real.log 2 ≠ 0 := by
  have hg : (initEngine exStream5 2 "USDJPY" 60 0).2 = 12 := rfl
  have hE : exStep5 = runStep exStream5 pcaConst none obsEmpty
      (initEngine exStream5 2 "USDJPY" 60 0).1 12 := by
    simp only [exStep5]
    rw [hg]
  have hCP : (runStep exStream5 pcaConst none obsEmpty
      (initEngine exStream5 2 "USDJPY" 60 0).1 12).2.1.current_points =
      [((0 : ℝ), 0, 0), (1, 0, 0)] := by
    rw [step_points_empty exStream5 pcaConst (initEngine exStream5 2 "USDJPY" 60 0).1 12
      rfl rfl rfl rfl (show (0.0 : ℝ) = 0 by norm_num)]
    norm_num [exStream5]
  have hd01 : dist3 ((0 : ℝ), (0 : ℝ), (0 : ℝ)) ((1 : ℝ), (0 : ℝ), (0 : ℝ)) = 1 := by
    show Real.sqrt (((0 : ℝ) - 1) ^ 2 + ((0 : ℝ) - 0) ^ 2 + ((0 : ℝ) - 0) ^ 2) = 1
    rw [show ((0 : ℝ) - 1) ^ 2 + ((0 : ℝ) - 0) ^ 2 + ((0 : ℝ) - 0) ^ 2 = 1 by norm_num]
    exact Real.sqrt_one
  have hd10 : dist3 ((1 : ℝ), (0 : ℝ), (0 : ℝ)) ((0 : ℝ), (0 : ℝ), (0 : ℝ)) = 1 := by
    rw [dist3_comm]
    exact hd01
  have hpd : pairDists [((0 : ℝ), 0, 0), (1, 0, 0)] = [0, 1, 1, 0] := by
    simp only [pairDists, List.cons_bind, List.nil_bind, List.map_cons, List.map_nil,
      List.append_nil, List.cons_append, List.nil_append, dist3_self, hd01, hd10]
  have hspd : specPairDists [((0 : ℝ), 0, 0), (1, 0, 0)] = [1] := by
    simp only [specPairDists, List.map_cons, List.map_nil, List.append_nil,
      List.cons_append, List.nil_append, hd01]
  have hr20 : List.range 20 = [0,1,2,3,4,5,6,7,8,9,10,11,12,13,14,15,16,17,18,19] := rfl
  have hcounts : histCounts [(0 : ℝ), 1, 1, 0] =
      [2,0,0,0,2,0,0,0,0,0,0,0,0,0,0,0,0,0,0,0] := by
    simp only [histCounts, hr20, List.map_cons, List.map_nil]
    norm_num [countIn, inBin]
  have hcounts1 : histCounts [(1 : ℝ)] =
      [0,0,0,0,1,0,0,0,0,0,0,0,0,0,0,0,0,0,0,0] := by
    simp only [histCounts, hr20, List.map_cons, List.map_nil]
    norm_num [countIn, inBin]
  have hce : cloudEntropy [((0 : ℝ), 0, 0), (1, 0, 0)] = Real.log 2 := by
    rw [cloudEntropy, hpd, hcounts]
    simp only [entropyOfCounts, List.map_cons, List.map_nil, List.sum_cons, List.sum_nil,
      Nat.cast_ofNat, Nat.cast_zero]
    norm_num
    rw [show ((1 : ℝ) / 2) = 2⁻¹ by norm_num, Real.log_inv]
    ring
  have hse : specCloudEntropy [((0 : ℝ), 0, 0), (1, 0, 0)] = 0 := by
    rw [specCloudEntropy, hspd, hcounts1]
    simp only [entropyOfCounts, List.map_cons, List.map_nil, List.sum_cons, List.sum_nil,
      Nat.cast_one, Nat.cast_zero]
    norm_num [Real.log_one]
  refine ⟨?_, ?_, (Real.log_pos (by norm_num)).ne'⟩
  · rw [hE, runStep_entropy, hCP, hce]
  · rw [hE, hCP, hse]

/-- Witness for C3_amended at the concrete stream (fun _ => 0) and the constant
PCA: the first five step results exist and satisfy the quiescence conjunct, the
membership hypothesis being discharged for an explicit element. -/
theorem C3_amended_witness :
    ∃ res, res ∈ (scenarioRun (fun _ => 0) pcaConst).take 5 ∧
      res.precession = 0 ∧ res.instability = 0 ∧ res.market_mood = 0 ∧
        res.signal = "NEUTRAL" := by
  have h1 := (C3_amended (fun _ => 0) pcaConst).1
  have h2 := (C3_amended (fun _ => 0) pcaConst).2
  have hlen : (scenarioRun (fun _ => 0) pcaConst).length = 10 := by
    have hl := congrArg List.length h1
    rw [List.length_map] at hl
    simpa using hl
  have hne : (scenarioRun (fun _ => 0) pcaConst).take 5 ≠ [] := by
    intro hnil
    have hl := congrArg List.length hnil
    rw [List.length_take, hlen] at hl
    simp at hl
  obtain ⟨res, hres⟩ := List.exists_mem_of_ne_nil _ hne
  exact ⟨res, hres, h2 res hres⟩
